import Mathlib

/-!
Verification development for the LEGv8-subset decoder/simulator in `src/main.go`.

The embedding below translates the source faithfully:

* Go strings that carry instruction bits are `List Char`; mnemonic strings are `String`.
* Go `map[int]int64` registers/memory are total functions `Int → Int` (a missing key
  reads as zero, exactly the Go map read default); a map assignment is the pointwise
  update `upd`.
* Go `int64` arithmetic wraps modulo 2^64 in two's complement; `wrap64`, `add64`,
  `sub64`, `shl64`, `sar64`, `and64`, `or64`, `xor64`, `andNot64` model the operators
  the source uses (`+`, `-`, `<<`, `>>`, `&`, `|`, `^`, `&^`) on values kept as `Int`
  in the range [-2^63, 2^63).
* `strconv.ParseInt(s, 2, 64)` with the error discarded is `parseBin` (0 on syntax
  error, clamped to the int64 range on range error, exactly Go's behaviour).
* Console output (`fmt.Println` debugging) is not an output artifact and is omitted;
  the two file artifacts are modelled as lists of `DisLine` (disassembly listing)
  and `SimLine` (simulation trace), one list element per `WriteString` of a line.

A remark on the driving loop of `main`: in the source the scanner loop
(lines 245-253) contains only the length check and its diagnostic, and the whole
decode/execute chain (lines 256-459) stands after the loop's closing brace, reading
the loop-local `binaryNumber`; the file as written does not compile (out-of-scope
`binaryNumber`, `int64` values used as `map[int]int64` keys at lines 276-284, and
`int += int64` at line 376).  The `continue` at line 251 and the chain's structure
indicate the chain is the per-line continuation of the loop body, and `mainStep`
embeds it as such, preserving the chain's else-if nesting exactly.
-/

namespace Legv8

/-- Character set removed by Go `strings.TrimSpace` (`unicode.IsSpace`):
`\t \n \v \f \r` space, NEL (U+0085), NBSP (U+00A0), and the Unicode
White_Space code points above U+00FF. -/
def goIsSpace (c : Char) : Bool :=
  c.toNat == 9 || c.toNat == 10 || c.toNat == 11 || c.toNat == 12 || c.toNat == 13 ||
  c.toNat == 32 || c.toNat == 133 || c.toNat == 160 || c.toNat == 5760 ||
  (Nat.ble 8192 c.toNat && Nat.ble c.toNat 8202) ||
  c.toNat == 8232 || c.toNat == 8233 || c.toNat == 8239 || c.toNat == 8287 ||
  c.toNat == 12288

/-- Model of Go `strings.TrimSpace`: drop leading and trailing white space. -/
def trimSpace (cs : List Char) : List Char :=
  ((cs.dropWhile goIsSpace).reverse.dropWhile goIsSpace).reverse

/-- Accumulator for a run of binary digits; `none` when a non-digit appears. -/
def binDigitsAux : List Char → Nat → Option Nat
  | [], acc => some acc
  | c :: cs, acc =>
    if c = '0' then binDigitsAux cs (2 * acc)
    else if c = '1' then binDigitsAux cs (2 * acc + 1)
    else none

/-- Value of a non-empty all-digit binary string, `none` otherwise. -/
def binDigits : List Char → Option Nat
  | [] => none
  | cs => binDigitsAux cs 0

/-- Largest int64 value. -/
def int64Max : Int := 9223372036854775807

/-- Smallest int64 value. -/
def int64Min : Int := -9223372036854775808

/-- Model of Go `strconv.ParseInt(s, 2, 64)` with the returned error discarded,
as every call site of the source does (`v, _ := strconv.ParseInt(...)`):
an optional sign followed by binary digits; 0 on a syntax error; the value
clamped to the int64 range on a range error. -/
def parseBin (cs : List Char) : Int :=
  match cs with
  | '+' :: rest =>
    match binDigits rest with
    | none => 0
    | some n => min (n : Int) int64Max
  | '-' :: rest =>
    match binDigits rest with
    | none => 0
    | some n => max (-(n : Int)) int64Min
  | _ =>
    match binDigits cs with
    | none => 0
    | some n => min (n : Int) int64Max

/-- Reduce an integer to the int64 value with the same residue mod 2^64. -/
def wrap64 (a : Int) : Int :=
  (a + 9223372036854775808) % 18446744073709551616 - 9223372036854775808

/-- Unsigned 64-bit view of an int64 value. -/
def toU64 (a : Int) : Nat := (a % 18446744073709551616).toNat

/-- Go `+` on int64. -/
def add64 (a b : Int) : Int := wrap64 (a + b)

/-- Go `-` on int64. -/
def sub64 (a b : Int) : Int := wrap64 (a - b)

/-- Go `<<` on int64 (bits shifted out are dropped; counts ≥ 64 give 0). -/
def shl64 (a : Int) (n : Nat) : Int := wrap64 (a * ((2 ^ n : Nat) : Int))

/-- Go `>>` on int64: arithmetic (sign-preserving) right shift, i.e. floor
division by 2^n. -/
def sar64 (a : Int) (n : Nat) : Int := Int.fdiv a ((2 : Int) ^ n)

/-- Go `&` on int64 via the unsigned view. -/
def and64 (a b : Int) : Int := wrap64 (Nat.land (toU64 a) (toU64 b))

/-- Go `|` on int64 via the unsigned view. -/
def or64 (a b : Int) : Int := wrap64 (Nat.lor (toU64 a) (toU64 b))

/-- Go `^` (binary xor) on int64 via the unsigned view. -/
def xor64 (a b : Int) : Int := wrap64 (Nat.xor (toU64 a) (toU64 b))

/-- Go `&^` (and-not) on int64 via the unsigned view. -/
def andNot64 (a b : Int) : Int :=
  wrap64 (Nat.land (toU64 a) (Nat.xor (toU64 b) 18446744073709551615))

/-- Reduce an integer to the int32 value with the same residue mod 2^32
(the `int32(...)` conversion at line 307 of the source). -/
def wrap32 (a : Int) : Int := (a + 2147483648) % 4294967296 - 2147483648

/-- Pointwise update of a Go map viewed as a zero-defaulted total function. -/
def upd (f : Int → Int) (k v : Int) : Int → Int := fun x => if x = k then v else f x

/-- Go `s[i:j]` on a string already known to be long enough. -/
def slice (cs : List Char) (i j : Nat) : List Char := (cs.take j).drop i

/-- Go `s[i]`.  Go panics when `i` is out of range; the source only indexes
strings whose length it has established, and the default here is never hit
on those inputs. -/
def charAt (cs : List Char) (i : Nat) : Char := cs.getD i ' '

/-- The `opcodeIdentifier` map of the source (lines 13-34); a missing key
gives `""`, the Go map default. -/
def opcodeIdentifier (s : List Char) : String :=
  if s = "000101".toList then "B"
  else if s = "10001010000".toList then "AND"
  else if s = "10001011000".toList then "ADD"
  else if s = "1001000100".toList then "ADDI"
  else if s = "10101010000".toList then "ORR"
  else if s = "10110100".toList then "CBZ"
  else if s = "10110101".toList then "CBNZ"
  else if s = "11001011000".toList then "SUB"
  else if s = "1101000100".toList then "SUBI"
  else if s = "110100101".toList then "MOVZ"
  else if s = "111100101".toList then "MOVK"
  else if s = "11010011010".toList then "LSR"
  else if s = "11010011011".toList then "LSL"
  else if s = "11111000000".toList then "STUR"
  else if s = "11111000010".toList then "LDUR"
  else if s = "11010011100".toList then "ASR"
  else if s = "00000000000000000000000000000000".toList then "NOP"
  else if s = "11101010000".toList then "EOR"
  else if s = "11111110110111101111111111100111".toList then "BREAK"
  else if s = "000000".toList then " "
  else ""

/-- The `instructionIdentifier` map of the source (lines 35-55); a missing
key gives `""`. -/
def instructionIdentifier (m : String) : String :=
  if m = "B" then "B"
  else if m = "AND" then "R"
  else if m = "ADD" then "R"
  else if m = "ADDI" then "I"
  else if m = "ORR" then "R"
  else if m = "CBZ" then "CB"
  else if m = "CBNZ" then "CB"
  else if m = "SUB" then "R"
  else if m = "SUBI" then "I"
  else if m = "MOVZ" then "IM"
  else if m = "MOVK" then "IM"
  else if m = "LSR" then "SHIFT"
  else if m = "LSL" then "SHIFT"
  else if m = "STUR" then "D"
  else if m = "LDUR" then "D"
  else if m = "ASR" then "SHIFT"
  else if m = "NOP" then " "
  else if m = "EOR" then "R"
  else if m = "BREAK" then "BREAK"
  else ""

/-- Architectural state passed to `simulate`: the two Go maps
`registers` and `memory`. -/
structure SimSt where
  registers : Int → Int
  memory : Int → Int

/-- Go `args[i]`.  Go panics when `i` is out of range; `simulate` is only
applied to argument lists long enough for the selected case. -/
def nthArg : List (List Char) → Nat → List Char
  | [], _ => []
  | a :: _, 0 => a
  | _ :: rest, n + 1 => nthArg rest n

/-- `getRegisterNumber` of the source (lines 63-66). -/
def getRegisterNumber (registerBits : List Char) : Int := parseBin registerBits

/-- `getShiftAmount` of the source (lines 68-71): the parse converted to
`uint` (mod 2^64) and multiplied by 16 with `uint` wrap-around. -/
def getShiftAmount (shiftBits : List Char) : Nat :=
  ((parseBin shiftBits % 18446744073709551616).toNat * 16) % 18446744073709551616

/-- Translation of `func simulate` (lines 73-159): the Execution Engine.
The Go switch becomes a first-match if chain; the two maps are mutated in
place in Go and returned here; the `Bool` is the halt signal (`true` only
for `BREAK`).  The debug `fmt.Println` calls touch no architectural state
and no output artifact and are omitted. -/
def simulate (instructionType : String) (args : List (List Char)) (st : SimSt) :
    SimSt × Bool :=
  if instructionType = "B" then
    let offset := parseBin (nthArg args 0)
    let offset := wrap64 (offset * 4)
    (⟨upd st.registers 15 (add64 (st.registers 15) offset), st.memory⟩, false)
  else if instructionType = "CB" then
    let offset := parseBin (nthArg args 1)
    let conditionMet := st.registers (getRegisterNumber (nthArg args 0)) = 0
    if (nthArg args 2 = "0".toList ∧ conditionMet) ∨
        (nthArg args 2 = "1".toList ∧ ¬conditionMet) then
      (⟨upd st.registers 15 (add64 (st.registers 15) (wrap64 (offset * 4))), st.memory⟩,
        false)
    else (st, false)
  else if instructionType = "R" then
    let rd := getRegisterNumber (nthArg args 2)
    let rn := getRegisterNumber (nthArg args 1)
    let rm := getRegisterNumber (nthArg args 0)
    if nthArg args 3 = "0000".toList then
      (⟨upd st.registers rd (and64 (st.registers rn) (st.registers rm)), st.memory⟩, false)
    else if nthArg args 3 = "0100".toList then
      (⟨upd st.registers rd (add64 (st.registers rn) (st.registers rm)), st.memory⟩, false)
    else if nthArg args 3 = "1100".toList then
      (⟨upd st.registers rd (sub64 (st.registers rn) (st.registers rm)), st.memory⟩, false)
    else if nthArg args 3 = "0001".toList then
      (⟨upd st.registers rd (xor64 (st.registers rn) (st.registers rm)), st.memory⟩, false)
    else (st, false)
  else if instructionType = "IM" then
    let rd := getRegisterNumber (nthArg args 2)
    let immediate := parseBin (nthArg args 0)
    let shiftAmount := getShiftAmount (nthArg args 1)
    (⟨upd st.registers rd (shl64 immediate shiftAmount), st.memory⟩, false)
  else if instructionType = "SHIFT" then
    let rd := getRegisterNumber (nthArg args 2)
    let rn := getRegisterNumber (nthArg args 1)
    let shiftAmount := (parseBin (nthArg args 0)).toNat
    if nthArg args 3 = "0010".toList then
      (⟨upd st.registers rd (sar64 (st.registers rn) shiftAmount), st.memory⟩, false)
    else if nthArg args 3 = "0011".toList then
      (⟨upd st.registers rd (shl64 (st.registers rn) shiftAmount), st.memory⟩, false)
    else if nthArg args 3 = "1010".toList then
      (⟨upd st.registers rd (sar64 (st.registers rn) shiftAmount), st.memory⟩, false)
    else (st, false)
  else if instructionType = "D" then
    let rd := getRegisterNumber (nthArg args 2)
    let rn := getRegisterNumber (nthArg args 0)
    let offset := parseBin (nthArg args 1)
    let address := add64 (st.registers rn) offset
    (⟨st.registers, upd st.memory address (st.registers rd)⟩, false)
  else if instructionType = "I" then
    let rd := getRegisterNumber (nthArg args 2)
    let rn := getRegisterNumber (nthArg args 1)
    let immediate := parseBin (nthArg args 0)
    (⟨upd st.registers rd (add64 (st.registers rn) immediate), st.memory⟩, false)
  else if instructionType = " " then (st, false)
  else if instructionType = "BREAK" then (st, true)
  else (st, false)

/-- Zero-initialized architectural state for `simulate`. -/
def simSt0 : SimSt := ⟨fun _ => 0, fun _ => 0⟩

/-- One line of the disassembly output artifact: one constructor per
`outputFile.WriteString` call of `main`, carrying the arguments of the
corresponding `fmt.Sprintf`. -/
inductive DisLine where
  | invalid (text : List Char)
  | afterBreak (text : List Char) (addr : Int) (decimalVal : Int)
  | rFormat (opcode rm shamt rn rd : List Char) (addr : Int) (mnemonic : String)
      (r3 r1 r2 : Int)
  | lsFormat (opcode rm shamt rn rd : List Char) (addr : Int) (mnemonic : String)
      (r3 r1 sh : Int)
  | dFormat (opcode address op2 rn rt : List Char) (addr : Int) (mnemonic : String)
      (r3 r1 r2 : Int)
  | iFormat (opcode immediate rn rd : List Char) (addr : Int) (mnemonic : String)
      (r3 r1 r2 : Int)
  | bFormat (opcode offset : List Char) (addr : Int) (mnemonic : String) (r2 : Int)
  | cbFormat (opcode offset conditional : List Char) (addr : Int) (mnemonic : String)
      (r1 r2 : Int)
  | imFormat (opcode shiftCode field rd : List Char) (addr : Int) (mnemonic : String)
      (imRd imField shifted : Int)
  | nopFormat (text : List Char) (addr : Int) (mnemonic : String)
  | breakFormat (groups : List (List Char)) (addr : Int) (mnemonic : String)
  | unknown (groups : List (List Char))
deriving DecidableEq

/-- One line group of the simulation trace artifact: the `simOutput` header
written at line 451-452 and the `printState` snapshot (lines 161-185, a pure
read of the state); both record the cycle, the instruction address and the
mnemonic they are given. -/
inductive SimLine where
  | header (cycle : Int) (addr : Int) (mnemonic : String)
  | snapshot (cycle : Int) (addr : Int) (mnemonic : String)
deriving DecidableEq

/-- The mutable state of `main`'s driving loop: the two Go maps, the
`breakFound` flag, the instruction address `memLocation` and the `cycle`
counter.  `cycle` is carried as `Int` because the (dead) branch at line 376
adds an `int64` offset to it. -/
structure Core where
  registers : Int → Int
  memory : Int → Int
  breakFound : Bool
  memLocation : Int
  cycle : Int

/-- The two's-complement adjustment the source repeats at lines 256-261,
346-350, 368-372 and 391-395: parse the field and, when its leading
character is '1', subtract 2^width from the unsigned parse. -/
def twosComplement (width : Nat) (field : List Char) : Int :=
  let v := parseBin field
  if charAt field 0 = '1' then v - ((2 : Int) ^ width) else v

/-- The SHIFT-format branch of `main` (lines 291-313).  It always writes the
`lsFormat` listing line; `LSL`/`LSR`/`ASR` update the destination register
(`>>` on int64 is Go's arithmetic shift; `ASR` first truncates to int32). -/
def shiftBranch (b : List Char) (s : Core) : Core × List DisLine :=
  let opcode := slice b 0 11
  let rm := slice b 11 16
  let shamt := slice b 16 22
  let rn := slice b 22 27
  let rd := slice b 27 32
  let r1 := parseBin rn
  let r3 := parseBin rd
  let sh := parseBin shamt
  let registers :=
    if opcodeIdentifier opcode = "LSL" then
      upd s.registers r3 (shl64 (s.registers r1) sh.toNat)
    else if opcodeIdentifier opcode = "LSR" then
      upd s.registers r3 (sar64 (s.registers r1) sh.toNat)
    else if opcodeIdentifier opcode = "ASR" then
      upd s.registers r3 (sar64 (wrap32 (s.registers r1)) sh.toNat)
    else s.registers
  (⟨registers, s.memory, s.breakFound, s.memLocation, s.cycle⟩,
    [DisLine.lsFormat opcode rm shamt rn rd s.memLocation (opcodeIdentifier opcode) r3 r1 sh])

/-- The D-format branch of `main` (lines 315-335).  It always writes the
`dFormat` listing line.  Its state updates test the mnemonic against
`"LDR"`/`"STR"`, names absent from `opcodeIdentifier` (which holds `"LDUR"`
and `"STUR"`), and, when they would match, index memory by register number
plus offset (`r1` is the parse of the `rn` field, not the register's value). -/
def dBranch (b : List Char) (s : Core) : Core × List DisLine :=
  let opcode := slice b 0 11
  let address := slice b 11 20
  let op2 := slice b 20 22
  let rn := slice b 22 27
  let rt := slice b 27 32
  let r2 := parseBin address
  let r1 := parseBin rn
  let r3 := parseBin rt
  let st : Core :=
    if opcodeIdentifier opcode = "LDR" then
      ⟨upd s.registers r3 (s.memory (add64 r1 r2)), s.memory, s.breakFound,
        s.memLocation, s.cycle⟩
    else if opcodeIdentifier opcode = "STR" then
      ⟨s.registers, upd s.memory (add64 r1 r2) (s.registers r3), s.breakFound,
        s.memLocation, s.cycle⟩
    else s
  (st, [DisLine.dFormat opcode address op2 rn rt s.memLocation (opcodeIdentifier opcode) r3 r1 r2])

/-- The B-format branch of `main` (lines 363-382): sign-extends the 26-bit
offset, adds it (unscaled) to the `cycle` counter when the mnemonic is `B`,
and writes the `bFormat` listing line. -/
def bBranch (b : List Char) (s : Core) : Core × List DisLine :=
  let opcode := slice b 0 6
  let offset := slice b 6 32
  let r2 := twosComplement 26 offset
  let cycle := if opcodeIdentifier opcode = "B" then s.cycle + r2 else s.cycle
  (⟨s.registers, s.memory, s.breakFound, s.memLocation, cycle⟩,
    [DisLine.bFormat opcode offset s.memLocation (opcodeIdentifier opcode) r2])

/-- The CB-format branch of `main` (lines 384-407): sign-extends the 19-bit
offset, adds it (unscaled) to `cycle` when the condition holds, and writes
the `cbFormat` listing line. -/
def cbBranch (b : List Char) (s : Core) : Core × List DisLine :=
  let opcode := slice b 0 8
  let offset := slice b 8 27
  let conditional := slice b 27 32
  let r2 := twosComplement 19 offset
  let r1 := parseBin conditional
  let cycle :=
    if opcodeIdentifier opcode = "CBNZ" ∧ s.registers r1 ≠ 0 then s.cycle + r2
    else if opcodeIdentifier opcode = "CBZ" ∧ s.registers r1 = 0 then s.cycle + r2
    else s.cycle
  (⟨s.registers, s.memory, s.breakFound, s.memLocation, cycle⟩,
    [DisLine.cbFormat opcode offset conditional s.memLocation (opcodeIdentifier opcode) r1 r2])

/-- The IM-format branch of `main` (lines 409-430): `MOVZ` writes
`field << (shiftCode × 16)`; `MOVK` masks out the 16-bit window at that
position and ors the shifted field in; the `imFormat` listing line is always
written. -/
def imBranch (b : List Char) (s : Core) : Core × List DisLine :=
  let opcode := slice b 0 9
  let shiftCode := slice b 9 11
  let field := slice b 11 27
  let rd := slice b 27 32
  let imShift := parseBin shiftCode
  let shifted := wrap64 (imShift * 16)
  let imField := parseBin field
  let imRd := parseBin rd
  let registers :=
    if opcodeIdentifier opcode = "MOVZ" then
      upd s.registers imRd (shl64 imField shifted.toNat)
    else if opcodeIdentifier opcode = "MOVK" then
      let mask := shl64 65535 shifted.toNat
      upd s.registers imRd
        (or64 (andNot64 (s.registers imRd) mask) (shl64 imField shifted.toNat))
    else s.registers
  (⟨registers, s.memory, s.breakFound, s.memLocation, s.cycle⟩,
    [DisLine.imFormat opcode shiftCode field rd s.memLocation (opcodeIdentifier opcode)
      imRd imField shifted])

/-- The I-format branch of `main` (lines 337-459): sign-extends the 12-bit
immediate, then runs the inner else-if chain exactly as nested in the source
(`ADDI` silent, `SUBI` printed, then B / CB / IM / NOP / BREAK / unknown),
and finally — still inside this branch — emits the simulation-trace header
and `printState` snapshot and advances `memLocation` by 4 and `cycle` by 1
(lines 451-458). -/
def iBranch (b : List Char) (s : Core) : Core × List DisLine × List SimLine :=
  let opcode := slice b 0 10
  let immediate := slice b 10 22
  let rn := slice b 22 27
  let rd := slice b 27 32
  let r1 := parseBin rn
  let r3 := parseBin rd
  let r2 := twosComplement 12 immediate
  let step : Core × List DisLine :=
    if opcodeIdentifier opcode = "ADDI" then
      (⟨upd s.registers r3 (add64 (s.registers r1) r2), s.memory, s.breakFound,
        s.memLocation, s.cycle⟩, [])
    else if opcodeIdentifier opcode = "SUBI" then
      (⟨upd s.registers r3 (sub64 (s.registers r1) r2), s.memory, s.breakFound,
        s.memLocation, s.cycle⟩,
        [DisLine.iFormat opcode immediate rn rd s.memLocation (opcodeIdentifier opcode) r3 r1 r2])
    else if instructionIdentifier (opcodeIdentifier (slice b 0 6)) = "B" then bBranch b s
    else if instructionIdentifier (opcodeIdentifier (slice b 0 8)) = "CB" then cbBranch b s
    else if instructionIdentifier (opcodeIdentifier (slice b 0 9)) = "IM" then imBranch b s
    else if opcodeIdentifier b = "NOP" then
      (s, [DisLine.nopFormat (b.take 32) s.memLocation (opcodeIdentifier b)])
    else if opcodeIdentifier b = "BREAK" then
      (⟨s.registers, s.memory, true, s.memLocation, s.cycle⟩,
        [DisLine.breakFormat
          [slice b 0 1, slice b 1 6, slice b 6 11, slice b 11 16, slice b 16 21,
            slice b 21 26, slice b 26 32] s.memLocation (opcodeIdentifier b)])
    else
      (s, [DisLine.unknown
        [slice b 0 8, slice b 8 11, slice b 11 16, slice b 16 21, slice b 21 26,
          slice b 26 32]])
  let s1 := step.1
  (⟨s1.registers, s1.memory, s1.breakFound, s1.memLocation + 4, s1.cycle + 1⟩,
    step.2,
    [SimLine.header s1.cycle s1.memLocation (opcodeIdentifier (slice b 0 11)),
      SimLine.snapshot s1.cycle s1.memLocation (opcodeIdentifier (slice b 0 11))])

/-- The R-format branch of `main` (lines 264-459): the inner else-if chain
exactly as nested in the source — `ADD`/`SUB`/`AND`/`ORR` update silently,
`EOR` updates and prints, and the SHIFT / D / I tests are further else-ifs
of this same chain. -/
def rBranch (b : List Char) (s : Core) : Core × List DisLine × List SimLine :=
  let opcode := slice b 0 11
  let rm := slice b 11 16
  let shamt := slice b 16 22
  let rn := slice b 22 27
  let rd := slice b 27 32
  let r2 := parseBin rm
  let r1 := parseBin rn
  let r3 := parseBin rd
  if opcodeIdentifier opcode = "ADD" then
    (⟨upd s.registers r3 (add64 (s.registers r1) (s.registers r2)), s.memory,
      s.breakFound, s.memLocation, s.cycle⟩, [], [])
  else if opcodeIdentifier opcode = "SUB" then
    (⟨upd s.registers r3 (sub64 (s.registers r1) (s.registers r2)), s.memory,
      s.breakFound, s.memLocation, s.cycle⟩, [], [])
  else if opcodeIdentifier opcode = "AND" then
    (⟨upd s.registers r3 (and64 (s.registers r1) (s.registers r2)), s.memory,
      s.breakFound, s.memLocation, s.cycle⟩, [], [])
  else if opcodeIdentifier opcode = "ORR" then
    (⟨upd s.registers r3 (or64 (s.registers r1) (s.registers r2)), s.memory,
      s.breakFound, s.memLocation, s.cycle⟩, [], [])
  else if opcodeIdentifier opcode = "EOR" then
    (⟨upd s.registers r3 (xor64 (s.registers r1) (s.registers r2)), s.memory,
      s.breakFound, s.memLocation, s.cycle⟩,
      [DisLine.rFormat opcode rm shamt rn rd s.memLocation (opcodeIdentifier opcode) r3 r1 r2],
      [])
  else if instructionIdentifier (opcodeIdentifier (slice b 0 11)) = "SHIFT" then
    let p := shiftBranch b s
    (p.1, p.2, [])
  else if instructionIdentifier (opcodeIdentifier (slice b 0 11)) = "D" then
    let p := dBranch b s
    (p.1, p.2, [])
  else if instructionIdentifier (opcodeIdentifier (slice b 0 10)) = "I" then iBranch b s
  else (s, [], [])

/-- The outer else-if chain of `main` (lines 256-459) applied to one trimmed
32-character line: the `breakFound` branch prints the decimal after-break
line; otherwise only an 11-bit prefix mapping to format `R` enters the
chain; every other line falls off the chain and does nothing. -/
def processInstr (b : List Char) (s : Core) : Core × List DisLine × List SimLine :=
  if s.breakFound then
    let decimalVal := twosComplement 32 b
    (s, [DisLine.afterBreak (b.take 32) s.memLocation decimalVal], [])
  else if instructionIdentifier (opcodeIdentifier (slice b 0 11)) = "R" then
    rBranch b s
  else (s, [], [])

/-- One iteration of the scanner loop of `main` for one raw input line
(lines 245-459): trim the line, emit the `Invalid binary string` diagnostic
and continue when the trimmed length is not 32, otherwise run the decode
chain.  In the source the chain (lines 256-459) stands after the loop's
closing brace and reads the loop-local `binaryNumber`, so the file does not
compile as written; the `continue` at line 251 and the chain's structure
identify it as the per-line continuation, and it is embedded here as such. -/
def mainStep (line : List Char) (s : Core) : Core × List DisLine × List SimLine :=
  let binaryNumber := trimSpace line
  if binaryNumber.length ≠ 32 then
    (s, [DisLine.invalid (binaryNumber.take 32)], [])
  else processInstr binaryNumber s

/-- The scanner loop over the whole input stream: fold `mainStep` and
concatenate each line's contributions to the two output artifacts. -/
def mainRun : List (List Char) → Core → Core × List DisLine × List SimLine
  | [], s => (s, [], [])
  | l :: ls, s =>
    ((mainRun ls (mainStep l s).1).1,
      (mainStep l s).2.1 ++ (mainRun ls (mainStep l s).1).2.1,
      (mainStep l s).2.2 ++ (mainRun ls (mainStep l s).1).2.2)

/-- Initial driving-loop state of `main` (lines 237-242): empty maps,
`breakFound = false`, `memLocation = 96`, `cycle = 1`. -/
def core0 : Core := ⟨fun _ => 0, fun _ => 0, false, 96, 1⟩

/-- Recognizer for the `Invalid binary string` diagnostic line. -/
def isInvalidDiag : DisLine → Bool
  | DisLine.invalid _ => true
  | _ => false

/-- The SHIFT branch never writes the invalid diagnostic. -/
theorem shiftBranch_no_invalid (b : List Char) (s : Core) :
    ((shiftBranch b s).2).any isInvalidDiag = false := rfl

/-- The D branch never writes the invalid diagnostic. -/
theorem dBranch_no_invalid (b : List Char) (s : Core) :
    ((dBranch b s).2).any isInvalidDiag = false := rfl

/-- The I branch never writes the invalid diagnostic (its B, CB and IM
sub-branches each emit one literal non-invalid line). -/
theorem iBranch_no_invalid (b : List Char) (s : Core) :
    ((iBranch b s).2.1).any isInvalidDiag = false := by
  simp only [iBranch]
  repeat' split
  all_goals rfl

/-- The R branch never writes the invalid diagnostic. -/
theorem rBranch_no_invalid (b : List Char) (s : Core) :
    ((rBranch b s).2.1).any isInvalidDiag = false := by
  simp only [rBranch]
  repeat' split
  all_goals
    first
      | rfl
      | exact shiftBranch_no_invalid b s
      | exact dBranch_no_invalid b s
      | exact iBranch_no_invalid b s

/-- The decode chain never writes the invalid diagnostic: that line comes
only from the length check of the scanner loop. -/
theorem processInstr_no_invalid (b : List Char) (s : Core) :
    ((processInstr b s).2.1).any isInvalidDiag = false := by
  simp only [processInstr]
  repeat' split
  all_goals first | rfl | exact rBranch_no_invalid b s

/-- C1: the claim says that once a `BREAK` instruction has been decoded and
executed no later line is executed or traced (`RUNNING → HALTED` terminal).
The code refutes it: the `BREAK` handler (line 437) is nested under the
unreachable I-format branch, so processing the `BREAK` line leaves
`breakFound = false` and produces no output at all, and the following `EOR`
line is still executed — its register assignment runs and its R-format
execution line is printed. -/
theorem C1_break_not_terminal :
    (mainStep ("11111110110111101111111111100111".toList) core0).2.1 = [] ∧
    (mainStep ("11111110110111101111111111100111".toList) core0).2.2 = [] ∧
    (mainRun ["11111110110111101111111111100111".toList,
      "11101010000000010000000000000010".toList] core0).1.breakFound = false ∧
    (mainRun ["11111110110111101111111111100111".toList,
      "11101010000000010000000000000010".toList] core0).2.1 =
      [DisLine.rFormat ("11101010000".toList) ("00001".toList) ("000000".toList)
        ("00000".toList) ("00010".toList) 96 "EOR" 2 0 1] := by
  refine ⟨?_, ?_, ?_, ?_⟩ <;> decide

/-- C2: the claim says the disassembly artifact holds exactly one text line
per input line.  The code refutes it: a well-formed 32-character `ADD` line
(trimmed length 32, known opcode) contributes zero lines to either artifact,
because printing in the R-format branch happens only in the `EOR` case. -/
theorem C2_missing_disassembly_line :
    (trimSpace ("10001011000000010000000000000010".toList)).length = 32 ∧
    opcodeIdentifier ("10001011000".toList) = "ADD" ∧
    (mainStep ("10001011000000010000000000000010".toList) core0).2.1 = [] ∧
    (mainStep ("10001011000000010000000000000010".toList) core0).2.2 = [] := by
  refine ⟨?_, ?_, ?_, ?_⟩ <;> decide

/-- C3: for every R-format instruction the Execution Engine `simulate` sets
`rd ← rn OP rm`, with OP ∈ {AND, ADD, SUB, EOR} selected by the secondary
discriminator field (`args[3]` ∈ {0000, 0100, 1100, 0001}), returns no halt
signal, and changes no other register and no memory cell; in particular,
with registers[1] = 5, the ADD discriminator with rd=2, rn=0, rm=1 yields
registers[2] = registers[0] + 5 and leaves registers 0 and 1 and all of
memory unchanged. -/
theorem C3_r_format_alu (regs mem : Int → Int) (rm rn rd : List Char) :
    ((simulate "R" [rm, rn, rd, "0000".toList] ⟨regs, mem⟩).2 = false ∧
      (∀ k, (simulate "R" [rm, rn, rd, "0000".toList] ⟨regs, mem⟩).1.registers k =
        if k = parseBin rd then and64 (regs (parseBin rn)) (regs (parseBin rm)) else regs k) ∧
      (∀ a, (simulate "R" [rm, rn, rd, "0000".toList] ⟨regs, mem⟩).1.memory a = mem a)) ∧
    ((simulate "R" [rm, rn, rd, "0100".toList] ⟨regs, mem⟩).2 = false ∧
      (∀ k, (simulate "R" [rm, rn, rd, "0100".toList] ⟨regs, mem⟩).1.registers k =
        if k = parseBin rd then add64 (regs (parseBin rn)) (regs (parseBin rm)) else regs k) ∧
      (∀ a, (simulate "R" [rm, rn, rd, "0100".toList] ⟨regs, mem⟩).1.memory a = mem a)) ∧
    ((simulate "R" [rm, rn, rd, "1100".toList] ⟨regs, mem⟩).2 = false ∧
      (∀ k, (simulate "R" [rm, rn, rd, "1100".toList] ⟨regs, mem⟩).1.registers k =
        if k = parseBin rd then sub64 (regs (parseBin rn)) (regs (parseBin rm)) else regs k) ∧
      (∀ a, (simulate "R" [rm, rn, rd, "1100".toList] ⟨regs, mem⟩).1.memory a = mem a)) ∧
    ((simulate "R" [rm, rn, rd, "0001".toList] ⟨regs, mem⟩).2 = false ∧
      (∀ k, (simulate "R" [rm, rn, rd, "0001".toList] ⟨regs, mem⟩).1.registers k =
        if k = parseBin rd then xor64 (regs (parseBin rn)) (regs (parseBin rm)) else regs k) ∧
      (∀ a, (simulate "R" [rm, rn, rd, "0001".toList] ⟨regs, mem⟩).1.memory a = mem a)) ∧
    ((simulate "R" ["00001".toList, "00000".toList, "00010".toList, "0100".toList]
        ⟨upd (fun _ => 0) 1 5, fun _ => 0⟩).1.registers 2 =
      (upd (fun _ => 0) 1 5 : Int → Int) 0 + 5 ∧
      (simulate "R" ["00001".toList, "00000".toList, "00010".toList, "0100".toList]
        ⟨upd (fun _ => 0) 1 5, fun _ => 0⟩).1.registers 1 = 5 ∧
      (simulate "R" ["00001".toList, "00000".toList, "00010".toList, "0100".toList]
        ⟨upd (fun _ => 0) 1 5, fun _ => 0⟩).1.registers 0 = 0 ∧
      (∀ a, (simulate "R" ["00001".toList, "00000".toList, "00010".toList, "0100".toList]
        ⟨upd (fun _ => 0) 1 5, fun _ => 0⟩).1.memory a = 0)) :=
  ⟨⟨rfl, fun _ => rfl, fun _ => rfl⟩,
    ⟨rfl, fun _ => rfl, fun _ => rfl⟩,
    ⟨rfl, fun _ => rfl, fun _ => rfl⟩,
    ⟨rfl, fun _ => rfl, fun _ => rfl⟩,
    by decide, by decide, by decide, fun _ => rfl⟩

/-- C4: the claim says a B-format instruction advances the program counter
by `signed_offset × 4`, a negative (sign-extended) offset moving it
backwards.  The code refutes the signed part: `simulate` parses the 26-bit
offset field unsigned, so the all-ones field (two's complement −1, for
which `twosComplement` — the sign-extension rule of `main`'s own dead B
branch — is also evaluated here) moves the program-counter register 15
forward by 268435452 instead of backward by 4.  The positive case of the
claim does hold: the field parsing to 2 advances register 15 by 8. -/
theorem C4_b_offset_not_sign_extended :
    twosComplement 26 ("11111111111111111111111111".toList) = -1 ∧
    (simulate "B" ["11111111111111111111111111".toList] simSt0).1.registers 15
      = 268435452 ∧
    (simulate "B" ["00000000000000000000000010".toList] simSt0).1.registers 15 = 8 := by
  refine ⟨?_, ?_, ?_⟩ <;> decide

/-- C5: the claim says a CB-format instruction advances the program counter
by `signed_offset × 4` exactly when the condition holds.  The condition
logic of `simulate` does match (flag 0 taken on a zero register, flag 1 on
a non-zero one, non-taken leaves the state alone), but the offset field is
parsed unsigned: for the 19-bit field with MSB 1 (two's complement
−262144) a taken CBZ moves register 15 forward by 1048576 instead of
backward by 1048576; the CBNZ flag on the same zero register is correctly
not taken. -/
theorem C5_cb_offset_not_sign_extended :
    twosComplement 19 ("1000000000000000000".toList) = -262144 ∧
    (simulate "CB" ["00000".toList, "1000000000000000000".toList, "0".toList]
      simSt0).1.registers 15 = 1048576 ∧
    (simulate "CB" ["00000".toList, "1000000000000000000".toList, "1".toList]
      simSt0).1.registers 15 = 0 := by
  refine ⟨?_, ?_, ?_⟩ <;> decide

/-- C6: the claim says a load mnemonic (LDUR) writes `rt ← memory[rn +
offset]` leaving memory unchanged.  The code refutes it: `simulate`'s D
case has no load path and unconditionally stores, so for an LDUR-decoded
instruction (the table does map prefix 11111000010 to LDUR) with
registers[3] = 7 and memory[5] = 99, memory[5] is overwritten with 7 and
register 3 keeps its old value instead of receiving 99. -/
theorem C6_d_format_always_stores :
    opcodeIdentifier ("11111000010".toList) = "LDUR" ∧
    (simulate "D" ["00000".toList, "000000101".toList, "00011".toList]
      ⟨upd (fun _ => 0) 3 7, upd (fun _ => 0) 5 99⟩).1.memory 5 = 7 ∧
    (simulate "D" ["00000".toList, "000000101".toList, "00011".toList]
      ⟨upd (fun _ => 0) 3 7, upd (fun _ => 0) 5 99⟩).1.registers 3 = 7 ∧
    (simulate "D" ["00000".toList, "000000101".toList, "00011".toList]
      ⟨upd (fun _ => 0) 3 7, upd (fun _ => 0) 5 99⟩).2 = false := by
  refine ⟨?_, ?_, ?_, ?_⟩ <;> decide

/-- C7: the claim says MOVK changes only the 16-bit window of rd at
`shift_code × 16`.  The code refutes it: `simulate`'s IM case applies the
MOVZ assignment to every IM instruction, so a MOVK of field 1 at shift
code 01 onto registers[3] = 65535 yields 65536 (low window cleared; old
XOR new = 131071 is not confined to the upper window) instead of the
claimed 131071 — the value `main`'s own (unreachable) IM branch, also
evaluated here on the full MOVK encoding, does produce. -/
theorem C7_movk_clobbers_register :
    (simulate "IM" ["0000000000000001".toList, "01".toList, "00011".toList]
      ⟨upd (fun _ => 0) 3 65535, fun _ => 0⟩).1.registers 3 = 65536 ∧
    (imBranch ("11110010101000000000000000100011".toList)
      ⟨upd (fun _ => 0) 3 65535, fun _ => 0, false, 96, 1⟩).1.registers 3 = 131071 := by
  refine ⟨?_, ?_⟩ <;> decide

/-- C8: the claim says the 12-bit I-format immediate is decoded by two's
complement sign extension (100000000000 ↦ −2048, 011111111111 ↦ 2047) and
ADDI/SUBI add or subtract that value.  The sign-extension rule itself
(`twosComplement`, the computation of `main`'s unreachable I branch) does
give those two values, but the Execution Engine refutes the claim:
`simulate`'s I case parses the immediate unsigned and always adds, so on
zeroed registers the immediate 100000000000 puts 2048 — not −2048 — into
rd. -/
theorem C8_i_immediate_not_sign_extended :
    twosComplement 12 ("100000000000".toList) = -2048 ∧
    twosComplement 12 ("011111111111".toList) = 2047 ∧
    (simulate "I" ["100000000000".toList, "00000".toList, "00001".toList]
      simSt0).1.registers 1 = 2048 := by
  refine ⟨?_, ?_, ?_⟩ <;> decide

/-- C9: a raw line whose trimmed content does not have length 32 produces
exactly one `Invalid binary string` diagnostic, leaves the whole driving
state (registers, memory, breakFound, memLocation, cycle) unchanged, emits
no trace line, and the rest of the stream is processed exactly as it would
have been without that line. -/
theorem C9_malformed_line_isolated (line : List Char) (rest : List (List Char))
    (c : Core) (h : (trimSpace line).length ≠ 32) :
    mainStep line c = (c, [DisLine.invalid ((trimSpace line).take 32)], []) ∧
    (mainRun (line :: rest) c).1 = (mainRun rest c).1 ∧
    (mainRun (line :: rest) c).2.1 =
      DisLine.invalid ((trimSpace line).take 32) :: (mainRun rest c).2.1 ∧
    (mainRun (line :: rest) c).2.2 = (mainRun rest c).2.2 := by
  have h1 : mainStep line c = (c, [DisLine.invalid ((trimSpace line).take 32)], []) := by
    simp only [mainStep]
    rw [if_pos h]
  refine ⟨h1, ?_, ?_, ?_⟩ <;> simp [mainRun, h1]

/-- C9 witness: a 31-character line is rejected with one diagnostic and no
state change. -/
theorem C9_malformed_line_isolated_witness :
    mainStep ("0000000000000000000000000000000".toList) core0 =
      (core0, [DisLine.invalid ("0000000000000000000000000000000".toList)], []) :=
  (C9_malformed_line_isolated ("0000000000000000000000000000000".toList) [] core0
    (by decide)).1

/-- C10: the length-32 check is applied to the line after trimming leading
and trailing white space: the `Invalid binary string` diagnostic appears
exactly when the trimmed content's length differs from 32, and when it is
32 the step processes the trimmed content as a normal instruction; in
particular a raw 36-character line whose trimmed content has length 32 is
accepted, while a raw 32-character line whose trimmed content has length
31 is rejected. -/
theorem C10_trim_before_length_check (line : List Char) (c : Core) :
    (((mainStep line c).2.1).any isInvalidDiag = true ↔ (trimSpace line).length ≠ 32) ∧
    ((trimSpace line).length = 32 → mainStep line c = processInstr (trimSpace line) c) ∧
    ((mainStep ("  10001011000000010000000000000010  ".toList) c).2.1).any
      isInvalidDiag = false ∧
    ((mainStep ("1000101100000001000000000000001 ".toList) c).2.1).any
      isInvalidDiag = true := by
  have he : ∀ _ : (trimSpace line).length = 32,
      mainStep line c = processInstr (trimSpace line) c := by
    intro h
    simp only [mainStep]
    rw [if_neg (fun hn => hn h)]
  refine ⟨⟨?_, ?_⟩, he, ?_, rfl⟩
  · intro hAny hLen
    rw [he hLen] at hAny
    rw [processInstr_no_invalid] at hAny
    exact absurd hAny (by decide)
  · intro hLen
    simp only [mainStep]
    rw [if_pos hLen]
    rfl
  · have h2 : mainStep ("  10001011000000010000000000000010  ".toList) c =
        processInstr (trimSpace ("  10001011000000010000000000000010  ".toList)) c := by
      simp only [mainStep]
      rw [if_neg (by decide)]
    rw [h2]
    exact processInstr_no_invalid _ c

/-- C10 witness: the raw 36-character padded ADD line is accepted and
processed as the trimmed 32-character instruction. -/
theorem C10_trim_before_length_check_witness :
    mainStep ("  10001011000000010000000000000010  ".toList) core0 =
      processInstr ("10001011000000010000000000000010".toList) core0 :=
  (C10_trim_before_length_check ("  10001011000000010000000000000010  ".toList)
    core0).2.1 (by decide)

end Legv8
